import Mathlib

/-!
Verification of the firmware image header decoder
(`tools/parse_image_header.py`) against its design specification.

The script is embedded shallowly: file content is a `List Nat` of byte
values, a missing file is `none`, and the run of the script is the pure
function `parse_image_header`, returning either the uncaught-exception
outcome (a bare `open` on a missing path raises `FileNotFoundError`,
which the interpreter turns into exit status 1 with no standard output),
the "File too small" outcome (exit status 2), or a full report record.
-/

set_option maxRecDepth 4096

namespace Jellyberry

/-- `spi_byte & 0x7` — the lower-3-bits candidate extraction. -/
def low3 (b : Nat) : Nat := b &&& 0x7

/-- `spi_byte & 0xf` — the lower-4-bits candidate extraction. -/
def low4 (b : Nat) : Nat := b &&& 0xf

/-- `(spi_byte >> 4) & 0x7` — the upper-3-bits candidate extraction. -/
def high3 (b : Nat) : Nat := (b >>> 4) &&& 0x7

/-- The `size_map` dict of the script, as an association list in the
source's insertion order. -/
def size_map : List (Nat × String) :=
  [(0, "1MB"), (1, "2MB"), (2, "4MB"), (3, "8MB"), (4, "16MB"), (5, "32MB")]

/-- `size_map.get(k, default)` — dictionary lookup with a default. -/
def size_map_get (k : Nat) (default : String) : String :=
  match size_map.lookup k with
  | some v => v
  | none => default

/-- The three candidate decodings printed for a config byte, in the
source's order: lower 3 bits, lower 4 bits, upper 3 bits, each paired
with its resolved label (`size_map.get(v, 'unknown')`). -/
def candidates (spi_byte : Nat) : List (Nat × String) :=
  [(low3 spi_byte, size_map_get (low3 spi_byte) "unknown"),
   (low4 spi_byte, size_map_get (low4 spi_byte) "unknown"),
   (high3 spi_byte, size_map_get (high3 spi_byte) "unknown")]

/-- The fixed marker list `[b'4096', b'8192', b'8MB', b'4MB', b'8192k', b'4096k']`
as byte sequences, in the source's iteration order. -/
def marker_list : List (List Nat) :=
  [[0x34, 0x30, 0x39, 0x36],
   [0x38, 0x31, 0x39, 0x32],
   [0x38, 0x4d, 0x42],
   [0x34, 0x4d, 0x42],
   [0x38, 0x31, 0x39, 0x32, 0x6b],
   [0x34, 0x30, 0x39, 0x36, 0x6b]]

/-- The marker scan loop: each marker `s` with `s in content` (byte-level
contiguous substring containment) is reported, in list order. -/
def foundMarkers (content : List Nat) : List (List Nat) :=
  marker_list.filter (fun s => decide (s <:+: content))

/-- The report produced on the successful path: header window bytes,
the three fixed-offset fields, the three candidate decodings and the
markers found. -/
structure HeaderReport where
  headerBytes : List Nat
  magic : Nat
  seg_count : Nat
  spi_byte : Nat
  cands : List (Nat × String)
  markers : List (List Nat)
deriving DecidableEq

/-- The possible outcomes of one run of the script. -/
inductive RunOutcome where
  | missingFile : RunOutcome
  | tooSmall : RunOutcome
  | ok : HeaderReport → RunOutcome
deriving DecidableEq

/-- One run of `parse_image_header.py`. The input is the target file's
content, or `none` when the path cannot be opened. `data = f.read(32)`
is the first 32 bytes; if `len(data) < 8` the script prints
`File too small` and exits with 2; otherwise it reads offsets 0, 1, 2,
prints the three candidate decodings, re-reads the whole file and scans
it for the markers. A missing file makes the bare `open` raise
`FileNotFoundError`, uncaught. -/
def parse_image_header (file : Option (List Nat)) : RunOutcome :=
  match file with
  | none => RunOutcome.missingFile
  | some content =>
    let data := content.take 32
    if data.length < 8 then RunOutcome.tooSmall
    else
      RunOutcome.ok
        { headerBytes := data
          magic := data.getD 0 0
          seg_count := data.getD 1 0
          spi_byte := data.getD 2 0
          cands := candidates (data.getD 2 0)
          markers := foundMarkers content }

/-- The process exit status of each outcome: 0 on normal completion,
2 from `sys.exit(2)` on the too-small path, 1 from the interpreter's
uncaught-exception termination on a missing file. -/
def exitCode : RunOutcome → Nat
  | RunOutcome.missingFile => 1
  | RunOutcome.tooSmall => 2
  | RunOutcome.ok _ => 0

/-- Whether the run terminated by an unhandled exception (an uncaught
`FileNotFoundError` from the bare `open`) rather than by a clean exit. -/
def unhandledFault : RunOutcome → Bool
  | RunOutcome.missingFile => true
  | _ => false

/-- Hexadecimal digit character for a value in [0,15]. -/
def hexDigit (n : Nat) : Char :=
  if n < 10 then Char.ofNat (48 + n) else Char.ofNat (87 + n)

/-- Two-digit lowercase hexadecimal rendering of a byte (`f'{x:02x}'`). -/
def hex2 (n : Nat) : String :=
  String.mk [hexDigit (n / 16 % 16), hexDigit (n % 16)]

/-- Eight-digit binary rendering of a byte (`f'{x:08b}'`). -/
def bin8 (n : Nat) : String :=
  String.mk ((List.range 8).map (fun i => if (n >>> (7 - i)) &&& 1 = 1 then '1' else '0'))

/-- `s.decode(errors='ignore')` on an ASCII marker. -/
def asciiDecode (l : List Nat) : String :=
  String.mk (l.map Char.ofNat)

/-- The lines printed to standard output by each outcome, one list
element per `print` call, in the source's order. The uncaught exception
on a missing file writes a traceback to standard error only. -/
def outputLines : RunOutcome → List String
  | RunOutcome.missingFile => []
  | RunOutcome.tooSmall => ["File too small"]
  | RunOutcome.ok r =>
    ["Header bytes: " ++ String.intercalate " " ((r.headerBytes.take 16).map hex2),
     "Magic: 0x" ++ hex2 r.magic,
     "Segment count: " ++ toString r.seg_count,
     "Raw spi byte: 0x" ++ hex2 r.spi_byte ++ " (" ++ bin8 r.spi_byte ++ ")",
     "Decoded candidates:",
     " - lower 3 bits -> " ++ toString (low3 r.spi_byte) ++ " " ++ size_map_get (low3 r.spi_byte) "unknown",
     " - lower 4 bits -> " ++ toString (low4 r.spi_byte) ++ " " ++ size_map_get (low4 r.spi_byte) "unknown",
     " - upper 3 bits -> " ++ toString (high3 r.spi_byte) ++ " " ++ size_map_get (high3 r.spi_byte) "unknown"]
    ++ r.markers.map (fun s => "Found ascii marker: " ++ asciiDecode s)
    ++ ["\nDone"]

/-- C1: for every configByte value in [0,255] the three candidate
extractions lie in their ranges ([0,7], [0,15], [0,7]); SizeTable lookup
resolves codes 0..5 to the fixed labels and every other code to
"unknown" without failing. -/
theorem C1_masks_and_size_table :
    (∀ b : Fin 256, low3 b.val ≤ 7 ∧ low4 b.val ≤ 15 ∧ high3 b.val ≤ 7)
    ∧ size_map_get 0 "unknown" = "1MB"
    ∧ size_map_get 1 "unknown" = "2MB"
    ∧ size_map_get 2 "unknown" = "4MB"
    ∧ size_map_get 3 "unknown" = "8MB"
    ∧ size_map_get 4 "unknown" = "16MB"
    ∧ size_map_get 5 "unknown" = "32MB"
    ∧ (∀ c : Nat, 5 < c → size_map_get c "unknown" = "unknown") := by
  refine ⟨by decide, rfl, rfl, rfl, rfl, rfl, rfl, ?_⟩
  intro c hc
  obtain ⟨d, rfl⟩ : ∃ d, c = d + 6 := ⟨c - 6, by omega⟩
  rfl

/-- C1 witness: the theorem applied at concrete inputs. -/
theorem C1_masks_and_size_table_witness :
    (low3 255 ≤ 7 ∧ low4 255 ≤ 15 ∧ high3 255 ≤ 7)
    ∧ size_map_get 9 "unknown" = "unknown" :=
  ⟨C1_masks_and_size_table.1 ⟨255, by decide⟩,
   C1_masks_and_size_table.2.2.2.2.2.2.2 9 (by decide)⟩

/-- C2: for every file whose header window (the first min(filesize,32)
bytes) has fewer than 8 bytes, the run prints exactly "File too small"
and exits with status 2, distinct from the missing-file status; it is
not an unhandled fault and no header fields or candidates are
reported. -/
theorem C2_too_small (content : List Nat) (h : (content.take 32).length < 8) :
    parse_image_header (some content) = RunOutcome.tooSmall
    ∧ outputLines (parse_image_header (some content)) = ["File too small"]
    ∧ exitCode (parse_image_header (some content)) = 2
    ∧ unhandledFault (parse_image_header (some content)) = false
    ∧ exitCode (parse_image_header none) ≠ 2 := by
  have hp : parse_image_header (some content) = RunOutcome.tooSmall := by
    simp only [parse_image_header]
    rw [if_pos h]
  refine ⟨hp, ?_, ?_, ?_, by decide⟩ <;> rw [hp] <;> rfl

/-- C2 witness: the empty file. -/
theorem C2_too_small_witness :
    parse_image_header (some []) = RunOutcome.tooSmall
    ∧ outputLines (parse_image_header (some [])) = ["File too small"]
    ∧ exitCode (parse_image_header (some [])) = 2
    ∧ unhandledFault (parse_image_header (some [])) = false
    ∧ exitCode (parse_image_header none) ≠ 2 :=
  C2_too_small [] (by decide)

/-- C3: for every file, a marker of the fixed set is reported if and
only if its exact byte sequence occurs somewhere in the file content;
the reported list has no duplicates (each found marker appears exactly
once) and is a sublist of the fixed marker list, so found markers come
in the fixed iteration order regardless of position or occurrence
count. -/
theorem C3_marker_scan (content : List Nat) :
    (∀ s, s ∈ marker_list → (s ∈ foundMarkers content ↔ s <:+: content))
    ∧ (foundMarkers content).Nodup
    ∧ (foundMarkers content).Sublist marker_list
    ∧ (∀ r : HeaderReport, parse_image_header (some content) = RunOutcome.ok r →
        r.markers = foundMarkers content) := by
  refine ⟨?_, ?_, List.filter_sublist _, ?_⟩
  · intro s hs
    simp [foundMarkers, List.mem_filter, hs]
  · exact List.Nodup.filter _ (by decide)
  · intro r hr
    simp only [parse_image_header] at hr
    by_cases hlen : (content.take 32).length < 8
    · rw [if_pos hlen] at hr
      exact absurd hr (by simp)
    · rw [if_neg hlen] at hr
      cases hr
      rfl

/-- C3 witness: a file that is exactly the bytes of "4MB". -/
theorem C3_marker_scan_witness :
    ([0x34, 0x4d, 0x42] ∈ foundMarkers [0x34, 0x4d, 0x42]
      ↔ [0x34, 0x4d, 0x42] <:+: [0x34, 0x4d, 0x42])
    ∧ (foundMarkers [0x34, 0x4d, 0x42]).Nodup :=
  ⟨(C3_marker_scan [0x34, 0x4d, 0x42]).1 [0x34, 0x4d, 0x42] (by decide),
   (C3_marker_scan [0x34, 0x4d, 0x42]).2.1⟩

/-- C4: every file with at least 8 bytes yields exactly one report, with
magic the byte at offset 0, segment count the byte at offset 1, config
byte the byte at offset 2, and exactly three candidate decodings; the
file starting E9 03 02 yields magic 0xe9, segment count 3, config byte
2, and candidates 2→"4MB", 2→"4MB", 0→"1MB". -/
theorem C4_report_fields :
    (∀ content : List Nat, 8 ≤ content.length →
      ∃ r : HeaderReport, parse_image_header (some content) = RunOutcome.ok r
        ∧ r.magic = content.getD 0 0
        ∧ r.seg_count = content.getD 1 0
        ∧ r.spi_byte = content.getD 2 0
        ∧ r.cands.length = 3)
    ∧ (∃ r : HeaderReport,
        parse_image_header (some [0xe9, 0x03, 0x02, 0, 0, 0, 0, 0]) = RunOutcome.ok r
        ∧ r.magic = 0xe9 ∧ r.seg_count = 3 ∧ r.spi_byte = 2
        ∧ r.cands = [(2, "4MB"), (2, "4MB"), (0, "1MB")]) := by
  constructor
  · intro content hlen
    have hnot : ¬ (content.take 32).length < 8 := by
      rw [List.length_take]
      omega
    have hget : ∀ i : Nat, i < 32 → (content.take 32).getD i 0 = content.getD i 0 := by
      intro i hi
      simp [List.getD_eq_getElem?_getD, List.getElem?_take_of_lt hi]
    refine ⟨{ headerBytes := content.take 32,
              magic := (content.take 32).getD 0 0,
              seg_count := (content.take 32).getD 1 0,
              spi_byte := (content.take 32).getD 2 0,
              cands := candidates ((content.take 32).getD 2 0),
              markers := foundMarkers content }, ?_, ?_, ?_, ?_, rfl⟩
    · simp only [parse_image_header]
      rw [if_neg hnot]
    · exact hget 0 (by omega)
    · exact hget 1 (by omega)
    · exact hget 2 (by omega)
  · refine ⟨_, rfl, ?_, ?_, ?_, ?_⟩ <;> rfl

/-- C4 witness: the first part applied to a concrete 8-byte file. -/
theorem C4_report_fields_witness :
    ∃ r : HeaderReport, parse_image_header (some [1, 2, 3, 4, 5, 6, 7, 8]) = RunOutcome.ok r
      ∧ r.magic = [1, 2, 3, 4, 5, 6, 7, 8].getD 0 0
      ∧ r.seg_count = [1, 2, 3, 4, 5, 6, 7, 8].getD 1 0
      ∧ r.spi_byte = [1, 2, 3, 4, 5, 6, 7, 8].getD 2 0
      ∧ r.cands.length = 3 :=
  C4_report_fields.1 [1, 2, 3, 4, 5, 6, 7, 8] (by decide)

/-- C5 counterexample: on a missing path the run terminates through the
uncaught `FileNotFoundError` of the bare `open`, that is, as an
unhandled fault — refuting the claim that the failure is reported as a
clean error rather than an unhandled fault. -/
theorem C5_clean_error_counterexample :
    unhandledFault (parse_image_header none) = true
    ∧ ¬ unhandledFault (parse_image_header none) = false := by
  decide

/-- C5 amended: on a missing path the run produces no standard output
and terminates with the interpreter's uncaught-exception status 1,
distinct from the insufficient-data status 2, but the failure is an
unhandled fault, not a cleanly reported error. -/
theorem C5_missing_file_amended :
    parse_image_header none = RunOutcome.missingFile
    ∧ outputLines (parse_image_header none) = []
    ∧ exitCode (parse_image_header none) = 1
    ∧ exitCode (parse_image_header none) ≠ exitCode RunOutcome.tooSmall
    ∧ unhandledFault (parse_image_header none) = true := by
  decide

/-- Helper for C6: the report output always ends with the completion
line. -/
theorem outputLines_ok_split (r : HeaderReport) :
    ∃ pre, outputLines (RunOutcome.ok r) = pre ++ ["\nDone"] := by
  simp only [outputLines]
  exact ⟨_, rfl⟩

/-- C6: an absent SizeTable entry is never an error: every run reaching
the report phase (at least 8 bytes) ends normally with exit status 0 and
emits the trailing completion line, including when all three candidates
are "unknown" and no markers are found. -/
theorem C6_unknown_not_error :
    (∀ content : List Nat, 8 ≤ content.length →
      exitCode (parse_image_header (some content)) = 0
      ∧ (∃ r, parse_image_header (some content) = RunOutcome.ok r)
      ∧ (∃ pre, outputLines (parse_image_header (some content)) = pre ++ ["\nDone"]))
    ∧ (∃ r : HeaderReport,
        parse_image_header (some [0xe9, 0x03, 0xff, 0, 0, 0, 0, 0]) = RunOutcome.ok r
        ∧ r.cands = [(7, "unknown"), (15, "unknown"), (7, "unknown")]
        ∧ r.markers = []
        ∧ exitCode (parse_image_header (some [0xe9, 0x03, 0xff, 0, 0, 0, 0, 0])) = 0) := by
  constructor
  · intro content hlen
    have hnot : ¬ (content.take 32).length < 8 := by
      rw [List.length_take]
      omega
    have hp : parse_image_header (some content) = RunOutcome.ok
        { headerBytes := content.take 32,
          magic := (content.take 32).getD 0 0,
          seg_count := (content.take 32).getD 1 0,
          spi_byte := (content.take 32).getD 2 0,
          cands := candidates ((content.take 32).getD 2 0),
          markers := foundMarkers content } := by
      simp only [parse_image_header]
      rw [if_neg hnot]
    rw [hp]
    exact ⟨rfl, ⟨_, rfl⟩, outputLines_ok_split _⟩
  · refine ⟨_, rfl, ?_, ?_, ?_⟩ <;> rfl

/-- C6 witness: the first part applied at a concrete 8-byte file. -/
theorem C6_unknown_not_error_witness :
    exitCode (parse_image_header (some [0xe9, 0x03, 0xff, 0, 0, 0, 0, 0])) = 0
    ∧ (∃ r, parse_image_header (some [0xe9, 0x03, 0xff, 0, 0, 0, 0, 0]) = RunOutcome.ok r)
    ∧ (∃ pre, outputLines (parse_image_header (some [0xe9, 0x03, 0xff, 0, 0, 0, 0, 0]))
        = pre ++ ["\nDone"]) :=
  C6_unknown_not_error.1 [0xe9, 0x03, 0xff, 0, 0, 0, 0, 0] (by decide)

/-- C7: the decoder is deterministic: two runs on the same file content
produce the same output lines and the same exit status. -/
theorem C7_deterministic (file : Option (List Nat)) :
    outputLines (parse_image_header file) = outputLines (parse_image_header file)
    ∧ exitCode (parse_image_header file) = exitCode (parse_image_header file) :=
  ⟨rfl, rfl⟩

/-- C8: bit 7 of the config byte never influences a candidate decoding:
setting it changes none of the three extracted values nor their
labels. -/
theorem C8_bit7_irrelevant :
    ∀ b : Fin 128,
      candidates (b.val + 128) = candidates b.val
      ∧ low3 (b.val + 128) = low3 b.val
      ∧ low4 (b.val + 128) = low4 b.val
      ∧ high3 (b.val + 128) = high3 b.val := by
  decide

/-- C9: for every config byte, low3 equals low4 masked to 3 bits; when
bit 3 is clear the lower-3-bits and lower-4-bits candidates have equal
values and resolve to the same label. -/
theorem C9_low3_low4_relation :
    (∀ b : Fin 256, low3 b.val = low4 b.val &&& 0x7)
    ∧ (∀ b : Fin 256, b.val &&& 0x8 = 0 →
        low3 b.val = low4 b.val
        ∧ size_map_get (low3 b.val) "unknown" = size_map_get (low4 b.val) "unknown") := by
  decide

/-- C9 witness: the theorem applied at config byte 2, whose bit 3 is
clear. -/
theorem C9_low3_low4_relation_witness :
    low3 2 = low4 2 &&& 0x7
    ∧ (low3 2 = low4 2
        ∧ size_map_get (low3 2) "unknown" = size_map_get (low4 2) "unknown") :=
  ⟨C9_low3_low4_relation.1 ⟨2, by decide⟩,
   C9_low3_low4_relation.2 ⟨2, by decide⟩ (by decide)⟩

/-- Helper for C10: a marker of the list is found whenever a found
marker extends it as a byte sequence. -/
theorem marker_mem_of_extension {content pat ext : List Nat}
    (hpat : pat ∈ marker_list) (hinf : pat <:+: ext)
    (h : ext ∈ foundMarkers content) : pat ∈ foundMarkers content := by
  rw [foundMarkers, List.mem_filter] at h
  have hext : ext <:+: content := by
    have h2 := h.2
    rwa [decide_eq_true_iff] at h2
  rw [foundMarkers, List.mem_filter]
  refine ⟨hpat, ?_⟩
  rw [decide_eq_true_iff]
  exact hinf.trans hext

/-- C10: marker reporting is closed under substring subsumption in the
fixed set: whenever "8192k" is reported, "8192" is too, and whenever
"4096k" is reported, "4096" is too. -/
theorem C10_marker_subsumption (content : List Nat) :
    ([0x38, 0x31, 0x39, 0x32, 0x6b] ∈ foundMarkers content →
      [0x38, 0x31, 0x39, 0x32] ∈ foundMarkers content)
    ∧ ([0x34, 0x30, 0x39, 0x36, 0x6b] ∈ foundMarkers content →
      [0x34, 0x30, 0x39, 0x36] ∈ foundMarkers content) :=
  ⟨fun h => marker_mem_of_extension (by decide) ⟨[], [0x6b], rfl⟩ h,
   fun h => marker_mem_of_extension (by decide) ⟨[], [0x6b], rfl⟩ h⟩

/-- C10 witness: a file containing both "8192k" and "4096k". -/
theorem C10_marker_subsumption_witness :
    [0x38, 0x31, 0x39, 0x32] ∈
      foundMarkers [0x38, 0x31, 0x39, 0x32, 0x6b, 0x20, 0x34, 0x30, 0x39, 0x36, 0x6b]
    ∧ [0x34, 0x30, 0x39, 0x36] ∈
      foundMarkers [0x38, 0x31, 0x39, 0x32, 0x6b, 0x20, 0x34, 0x30, 0x39, 0x36, 0x6b] :=
  ⟨(C10_marker_subsumption _).1 (by decide),
   (C10_marker_subsumption _).2 (by decide)⟩

end Jellyberry
